import Mathlib

/-!
Shallow embedding of the registry-viewer Registry Gateway core:
the proxy route handlers in `src/app/api/proxy/[...path]/route.ts`
and the registry API client in `src/lib/apiClient.ts`.

Strings model JavaScript strings; header sets are association lists of
(name, value) pairs; the network is modelled as an explicit transport
function passed to each embedded operation, so that every outbound
request an operation would issue can be recorded and reasoned about.
-/

namespace RegistryViewer

/-! ## Header Sanitizer (`sanitizeHeaders`, route.ts lines 11-16)

The WHATWG `Headers` object matches header names case-insensitively;
`delete("Host")` removes any header whose name lowercases to "host".
We model a header set as a list of (name, value) pairs and the two
deletions as one filter over the list. -/

/-- Case normalisation of a header name, as the `Headers` object applies it
when matching names (`String.toLower`, spelled out over the char list). -/
def lowerName (n : String) : String := String.mk (n.data.map Char.toLower)

/-- One pass of `new Headers(headers)` followed by `delete("Host")` and
`delete("Authorization")`: keep exactly the headers whose (case-insensitive)
name is neither `host` nor `authorization`. -/
def sanitizeHeaders (hs : List (String × String)) : List (String × String) :=
  hs.filter (fun h => !(lowerName h.1 == "host" || lowerName h.1 == "authorization"))

/-! ## Path Translator (`buildRegistryUrl`, route.ts lines 24-34)

`req.nextUrl.pathname.replace(/^\/api\/proxy/, "")` removes the literal
prefix `/api/proxy` when the path starts with it; an empty remainder is
replaced by `"/"`; the upstream URL is `REGISTRY_URL + "/v2" + remainder`. -/

/-- The local gateway path prefix removed by the anchored regex. -/
def localProxyPath : String := "/api/proxy"

/-- `pathname.replace(/^\/api\/proxy/, "")`: drop the prefix when present. -/
def stripLocal (p : String) : String :=
  if localProxyPath.data.isPrefixOf p.data then
    String.mk (p.data.drop localProxyPath.data.length)
  else p

/-- The URL part of `buildRegistryUrl`: translate the inbound pathname to the
upstream registry URL.  `registryURL` models the `REGISTRY_URL` constant. -/
def buildRegistryUrl (registryURL pathname : String) : String :=
  let registryPath := stripLocal pathname
  let registryPath := if registryPath = "" then "/" else registryPath
  registryURL ++ "/v2" ++ registryPath

end RegistryViewer

namespace RegistryViewer

/-- A header name the sanitizer strips: `host` or `authorization`,
matched case-insensitively. -/
def blockedName (n : String) : Prop :=
  lowerName n = "host" ∨ lowerName n = "authorization"

instance (n : String) : Decidable (blockedName n) := by
  unfold blockedName; infer_instance

/-- C7: the sanitized header set has no host / authorization header, every
other input header survives unchanged, and the output is a sublist of the
input (so the sanitizer adds nothing and reorders nothing). -/
theorem sanitizeHeaders_no_credentials (hs : List (String × String)) :
    (∀ h ∈ sanitizeHeaders hs, ¬ blockedName h.1) ∧
    (∀ h ∈ hs, ¬ blockedName h.1 → h ∈ sanitizeHeaders hs) ∧
    List.Sublist (sanitizeHeaders hs) hs := by
  refine ⟨?_, ?_, List.filter_sublist hs⟩
  · intro h hmem
    rw [sanitizeHeaders, List.mem_filter] at hmem
    have h2 := hmem.2
    simp only [Bool.not_eq_true', Bool.or_eq_false_iff, beq_eq_false_iff_ne] at h2
    intro hb
    cases hb with
    | inl e => exact h2.1 e
    | inr e => exact h2.2 e
  · intro h hmem hnb
    rw [sanitizeHeaders, List.mem_filter]
    refine ⟨hmem, ?_⟩
    simp only [Bool.not_eq_true', Bool.or_eq_false_iff, beq_eq_false_iff_ne]
    exact ⟨fun e => hnb (Or.inl e), fun e => hnb (Or.inr e)⟩

/-- C7 witness: the theorem applied to a concrete header set containing
`Host`, `AUTHORIZATION` and an ordinary header. -/
theorem sanitizeHeaders_no_credentials_witness :
    (∀ h ∈ sanitizeHeaders [("Host", "a"), ("AUTHORIZATION", "b"), ("Accept", "c")],
        ¬ blockedName h.1) ∧
    ("Accept", "c") ∈ sanitizeHeaders [("Host", "a"), ("AUTHORIZATION", "b"), ("Accept", "c")] := by
  have h := sanitizeHeaders_no_credentials [("Host", "a"), ("AUTHORIZATION", "b"), ("Accept", "c")]
  exact ⟨h.1, h.2.1 ("Accept", "c") (by decide) (by decide)⟩

/-- C6: for every inbound path of the form `/api/proxy` ++ rest, the
translated upstream URL is `<registry-base>/v2<rest>`, and an empty
remainder translates to `<registry-base>/v2/`. -/
theorem buildRegistryUrl_translation (base rest : String) :
    buildRegistryUrl base (localProxyPath ++ rest)
      = base ++ "/v2" ++ (if rest = "" then "/" else rest) := by
  have hdata : (localProxyPath ++ rest).data = localProxyPath.data ++ rest.data :=
    String.data_append _ _
  have hpre : localProxyPath.data.isPrefixOf ((localProxyPath ++ rest).data) = true := by
    rw [hdata, List.isPrefixOf_iff_prefix]
    exact List.prefix_append _ _
  have hstrip : stripLocal (localProxyPath ++ rest) = rest := by
    rw [stripLocal, if_pos hpre, hdata, List.drop_left]
  rw [buildRegistryUrl, hstrip]

end RegistryViewer

namespace RegistryViewer

/-! ## Transient-Fault Fetcher (`simpleFetch` / `performFetch`, route.ts 127-207)

The upstream `fetch` call is modelled by a transport indexed by the attempt
number (how many fetches this handler invocation already issued): attempt `n`
either delivers a response with an HTTP status (`ok status`) or throws a
transport-level error (`transportErr`). -/

/-- Outcome of one `fetch` attempt against the upstream registry. -/
inductive Upstream : Type
  | ok (status : Nat)
  | transportErr
  deriving DecidableEq, Repr

/-- The `NextResponse` a fetch helper produces, by provenance. -/
inductive FetchResult : Type
  /-- `response.ok` (2xx): body and headers forwarded with the upstream status. -/
  | passthrough (status : Nat)
  /-- non-ok upstream status: JSON error forwarded with the same status. -/
  | upstreamErr (status : Nat)
  /-- `Cache miss after max retries.` JSON error, status 404. -/
  | cacheMissExhausted
  /-- `handleErrorResponse`: generic `Internal server error`, status 500. -/
  | internalErr
  /-- the unreachable post-loop `Unexpected error during fetch.`, status 500. -/
  | unexpectedErr
  deriving DecidableEq, Repr

/-- `handleFetchResponse` (route.ts 72-86): a 2xx response is passed through,
any other status is forwarded as a JSON error with that status. -/
def handleFetchResponse (status : Nat) : FetchResult :=
  if 200 ≤ status ∧ status < 300 then .passthrough status else .upstreamErr status

/-- `const maxRetries = 3` in `performFetch`. -/
def maxRetries : Nat := 3

/-- `simpleFetch` (route.ts 127-140): one fetch; a thrown transport error
becomes the generic 500 via `handleErrorResponse`.  Result is paired with
the number of fetch attempts made (always 1). -/
def simpleFetch (u : Upstream) : FetchResult × Nat :=
  match u with
  | .ok s => (handleFetchResponse s, 1)
  | .transportErr => (.internalErr, 1)

/-- The `while (retryCount <= maxRetries)` loop body of `performFetch`
(route.ts 162-201).  `fuel` is `maxRetries + 1 - rc`, enough for the loop to
run to its own exits; `rc` is `retryCount`; the result is paired with the
attempt count and the number of 1-second `wait(1000)` sleeps performed. -/
def performFetchGo (t : Nat → Upstream) :
    Nat → Nat → Nat → Nat → FetchResult × Nat × Nat
  | 0, _, attempts, waits => (.unexpectedErr, attempts, waits)
  | fuel + 1, rc, attempts, waits =>
    if rc ≤ maxRetries then
      match t rc with
      | .ok status =>
        if status = 304 then
          if rc + 1 > maxRetries then (.cacheMissExhausted, attempts + 1, waits)
          else performFetchGo t fuel (rc + 1) (attempts + 1) (waits + 1)
        else (handleFetchResponse status, attempts + 1, waits)
      | .transportErr =>
        if maxRetries ≤ rc then (.internalErr, attempts + 1, waits)
        else performFetchGo t fuel (rc + 1) (attempts + 1) waits
    else (.unexpectedErr, attempts, waits)

/-- `performFetch` (route.ts 153-207): bounded retry, with a 1-second wait
before each retry of a 304 (conditional-cache mismatch) response and no wait
before a retry of a thrown transport error. -/
def performFetch (t : Nat → Upstream) : FetchResult × Nat × Nat :=
  performFetchGo t (maxRetries + 1) 0 0 0

/-- The GET handler (route.ts 215-221): it builds the registry URL and
sanitized headers and then issues ONE `simpleFetch`; the call to the
retrying `performFetch` is commented out in the source.  Only attempt 0 of
the transport is ever consulted. -/
def GETfetch (t : Nat → Upstream) : FetchResult × Nat := simpleFetch (t 0)

/-- A transport that throws on the first attempt and would deliver HTTP 200
on every later attempt. -/
def failThenOkTransport : Nat → Upstream :=
  fun n => if n = 0 then .transportErr else .ok 200

/-- A transport that answers 304 on the first two attempts and 200 after. -/
def twoMissTransport : Nat → Upstream :=
  fun n => if n < 2 then .ok 304 else .ok 200

/-- A transport that answers 304 on every attempt. -/
def allMissTransport : Nat → Upstream := fun _ => .ok 304

end RegistryViewer

namespace RegistryViewer

/-- C5: the retrying fetcher retries a 304 after a fixed 1-second wait: on
304, 304, 200 it returns the passthrough 200 result after exactly 3 attempts
(2 waits); on unbroken 304s it stops after 4 attempts (initial + 3 retries)
with the distinct exhausted-retries failure, never forwarding the 304. -/
theorem performFetch_cache_retry (t : Nat → Upstream) :
    (t 0 = .ok 304 → t 1 = .ok 304 → t 2 = .ok 200 →
      performFetch t = (.passthrough 200, 3, 2)) ∧
    ((∀ n, t n = .ok 304) →
      performFetch t = (.cacheMissExhausted, 4, 3)) := by
  constructor
  · intro h0 h1 h2
    simp [performFetch, performFetchGo, maxRetries, handleFetchResponse, h0, h1, h2]
  · intro h
    simp [performFetch, performFetchGo, maxRetries, h 0, h 1, h 2, h 3]

/-- C5 witness: the theorem applied to the two concrete transports. -/
theorem performFetch_cache_retry_witness :
    performFetch twoMissTransport = (.passthrough 200, 3, 2) ∧
    performFetch allMissTransport = (.cacheMissExhausted, 4, 3) :=
  ⟨(performFetch_cache_retry twoMissTransport).1 rfl rfl rfl,
   (performFetch_cache_retry allMissTransport).2 (fun _ => rfl)⟩

/-- C3 counterexample: against a transport whose first attempt throws and
whose second attempt would deliver HTTP 200, the GET path returns the
generic internal error after exactly one attempt — no retry happens — while
the unused retrying fetcher would have returned the 200 on attempt 2. -/
theorem GET_transport_no_retry_cex :
    GETfetch failThenOkTransport = (.internalErr, 1) ∧
    failThenOkTransport 1 = .ok 200 ∧
    performFetch failThenOkTransport = (.passthrough 200, 2, 0) := by
  refine ⟨rfl, rfl, ?_⟩
  simp [performFetch, performFetchGo, maxRetries, handleFetchResponse, failThenOkTransport]

/-- C3 (amended): the GET handler issues exactly one upstream fetch; a
transport-level failure of that single attempt immediately yields the
generic internal error (HTTP 500), with no retries; a delivered upstream
response is never turned into that internal error, so the two remain
distinguishable. -/
theorem GET_single_attempt (t : Nat → Upstream) :
    (GETfetch t).2 = 1 ∧
    (t 0 = .transportErr → GETfetch t = (.internalErr, 1)) ∧
    (∀ s, t 0 = .ok s →
      GETfetch t = (handleFetchResponse s, 1) ∧ handleFetchResponse s ≠ .internalErr) := by
  refine ⟨?_, ?_, ?_⟩
  · cases h : t 0 <;> simp [GETfetch, simpleFetch, h]
  · intro h; simp [GETfetch, simpleFetch, h]
  · intro s h
    refine ⟨by simp [GETfetch, simpleFetch, h], ?_⟩
    unfold handleFetchResponse
    by_cases hs : 200 ≤ s ∧ s < 300 <;> simp [hs]

/-- C3 amended-claim witness: the amended theorem applied to the concrete
failing transport. -/
theorem GET_single_attempt_witness :
    GETfetch failThenOkTransport = (.internalErr, 1) :=
  (GET_single_attempt failThenOkTransport).2.1 rfl

end RegistryViewer

namespace RegistryViewer

/-! ## Route handlers: the outbound request each verb builds
(route.ts 215-262).  Each handler calls `buildRegistryUrl` (URL plus
sanitized headers) and hands method, URL, headers and an optional body
to `simpleFetch`. -/

/-- The parts of an inbound `NextRequest` the handlers consume:
`req.nextUrl.pathname`, `req.headers`, and `await req.text()`. -/
structure InboundReq : Type where
  pathname : String
  headers : List (String × String)
  bodyText : String
  deriving DecidableEq, Repr

/-- The arguments a handler passes to `simpleFetch`, i.e. the outbound
upstream request: `fetch(url, { method, headers, body })`. -/
structure OutboundReq : Type where
  method : String
  url : String
  headers : List (String × String)
  body : Option String
  deriving DecidableEq, Repr

/-- GET handler (route.ts 215-221): `simpleFetch("GET", url, headers)`. -/
def GEToutbound (registryURL : String) (req : InboundReq) : OutboundReq :=
  { method := "GET"
    url := buildRegistryUrl registryURL req.pathname
    headers := sanitizeHeaders req.headers
    body := none }

/-- POST handler (route.ts 229-235): the body is read
(`const body = await req.text()`) but the call is
`simpleFetch("POST", url, headers)` — the body is not passed on. -/
def POSToutbound (registryURL : String) (req : InboundReq) : OutboundReq :=
  { method := "POST"
    url := buildRegistryUrl registryURL req.pathname
    headers := sanitizeHeaders req.headers
    body := none }

/-- PUT handler (route.ts 243-249): `simpleFetch("PUT", url, headers, body)`
with the body read from the inbound request. -/
def PUToutbound (registryURL : String) (req : InboundReq) : OutboundReq :=
  { method := "PUT"
    url := buildRegistryUrl registryURL req.pathname
    headers := sanitizeHeaders req.headers
    body := some req.bodyText }

/-- DELETE handler (route.ts 257-262): `simpleFetch("DELETE", url, headers)`. -/
def DELETEoutbound (registryURL : String) (req : InboundReq) : OutboundReq :=
  { method := "DELETE"
    url := buildRegistryUrl registryURL req.pathname
    headers := sanitizeHeaders req.headers
    body := none }

/-- C4: at a concrete POST request carrying a non-empty body, the outbound
upstream request built by the POST handler has no body at all, while the PUT
handler forwards the same inbound body — the POST handler reads the body and
then drops it. -/
theorem POST_drops_body :
    (POSToutbound "http://localhost:5000"
        { pathname := "/api/proxy/myrepo/blobs/uploads/"
          headers := [("Content-Type", "application/octet-stream")]
          bodyText := "layerdata" }).body = none ∧
    (PUToutbound "http://localhost:5000"
        { pathname := "/api/proxy/myrepo/blobs/uploads/"
          headers := [("Content-Type", "application/octet-stream")]
          bodyText := "layerdata" }).body = some "layerdata" :=
  ⟨rfl, rfl⟩

end RegistryViewer

namespace RegistryViewer

/-! ## Registry API client (`src/lib/apiClient.ts`)

Each client operation is parameterised by an explicit transport answering
the requests it issues through the shared axios instance.  An axios call
either rejects (network error, timeout — `netErr`) or delivers a response;
a delivered response whose status fails the call's `validateStatus` check
is then also rejected by axios and lands in the caller's `catch`. -/

/-- A request issued through the axios `apiClient`: method, request path as
written in the source, and the Accept header when the caller sets one. -/
structure ApiRequest : Type where
  method : String
  path : String
  accept : Option String
  deriving DecidableEq, Repr

/-- A delivered response of a manifest endpoint: HTTP status, the optional
`docker-content-digest` response header, and the opaque response body. -/
structure ManifestResp : Type where
  status : Nat
  digest : Option String
  body : String
  deriving DecidableEq, Repr

/-- Outcome of one axios request before status validation. -/
inductive Outcome (α : Type) : Type
  | resp (r : α)
  | netErr
  deriving DecidableEq, Repr

/-- axios's default `validateStatus`: accept exactly the 2xx statuses. -/
def validOk (status : Nat) : Bool := 200 ≤ status && status < 300

/-- The `validateStatus` of the probe loop (apiClient.ts 173-174):
accept exactly 200 and 404. -/
def validOkOrNotFound (status : Nat) : Bool := status == 200 || status == 404

/-- Result of `fetchManifests`: the returned `{digest, data}` object, or the
`null` return. -/
inductive ManifestResult : Type
  | found (digest : Option String) (body : String)
  | nullResult
  deriving DecidableEq, Repr

/-- First probe candidate: Docker single-manifest schema v2. -/
def dockerManifestV2 : String := "application/vnd.docker.distribution.manifest.v2+json"

/-- Second probe candidate: OCI image-index schema. -/
def ociImageIndex : String := "application/vnd.oci.image.index.v1+json"

/-- The `mediaTypes` probe list of apiClient.ts 163-166, in source order. -/
def mediaTypesProbe : List String := [dockerManifestV2, ociImageIndex]

/-- The GET request `fetchManifests` issues for one candidate media type:
`apiClient.get("proxy/<repository>/manifests/<reference>", {Accept: mt})`. -/
def manifestReq (repository reference mt : String) : ApiRequest :=
  { method := "GET"
    path := "proxy/" ++ repository ++ "/manifests/" ++ reference
    accept := some mt }

/-- The `for (const mediaType of mediaTypes)` probe loop of apiClient.ts
167-193, instrumented with the list of requests issued.  A rejected call
(network error, or a status outside {200, 404}) is caught, logged and the
loop continues; a delivered 404 falls through the `status === 200` test and
the loop continues; the first 200 returns immediately. -/
def probeManifests (net : ApiRequest → Outcome ManifestResp)
    (repository reference : String) :
    List String → ManifestResult × List ApiRequest
  | [] => (.nullResult, [])
  | mt :: rest =>
    let req := manifestReq repository reference mt
    match net req with
    | .netErr =>
      let r := probeManifests net repository reference rest
      (r.1, req :: r.2)
    | .resp resp =>
      if validOkOrNotFound resp.status then
        if resp.status = 200 then (.found resp.digest resp.body, [req])
        else
          let r := probeManifests net repository reference rest
          (r.1, req :: r.2)
      else
        let r := probeManifests net repository reference rest
        (r.1, req :: r.2)

/-- `fetchManifests` (apiClient.ts 129-196), instrumented with the list of
requests issued.  A non-empty `mediaType` is the truthy `if (mediaType)`
branch: a single request with that Accept header, where any rejection or a
delivered non-200 yields `null` and a 200 yields the digest taken from the
`docker-content-digest` response header together with the body.  Otherwise
(no media type, or the falsy empty string) the probe loop runs. -/
def fetchManifests (net : ApiRequest → Outcome ManifestResp)
    (repository reference : String) (mediaType : Option String) :
    ManifestResult × List ApiRequest :=
  match mediaType with
  | some mt =>
    if mt = "" then probeManifests net repository reference mediaTypesProbe
    else
      let req := manifestReq repository reference mt
      match net req with
      | .netErr => (.nullResult, [req])
      | .resp resp =>
        if validOk resp.status then
          if resp.status = 200 then (.found resp.digest resp.body, [req])
          else (.nullResult, [req])
        else (.nullResult, [req])
  | none => probeManifests net repository reference mediaTypesProbe

/-- The DELETE request `deleteTag` issues once a digest is resolved:
`apiClient.delete("/proxy/<repository>/manifests/<digest>")`. -/
def deleteReq (repository digest : String) : ApiRequest :=
  { method := "DELETE"
    path := "/proxy/" ++ repository ++ "/manifests/" ++ digest
    accept := none }

/-- The terminal per-tag outcome of `deleteTag`, as its logs record it. -/
inductive DeleteOutcome : Type
  | deleted
  | noDigest
  | deleteFailed
  deriving DecidableEq, Repr

/-- `deleteTag` (apiClient.ts 241-269): resolve the tag with no explicit
media type; a `null` result or a missing/empty digest throws inside the
`try`, is caught and logged; otherwise exactly one DELETE by digest is
attempted, its rejection also caught.  Instrumented with the requests
issued.  The function is total: every branch of the source ends inside the
one enclosing try/catch, so `deleteTag` itself never rejects. -/
def deleteTag (net : ApiRequest → Outcome ManifestResp)
    (repository tag : String) : DeleteOutcome × List ApiRequest :=
  let m := fetchManifests net repository tag none
  match m.1 with
  | .nullResult => (.noDigest, m.2)
  | .found dg _ =>
    match dg with
    | none => (.noDigest, m.2)
    | some d =>
      if d = "" then (.noDigest, m.2)
      else
        let req := deleteReq repository d
        match net req with
        | .netErr => (.deleteFailed, m.2 ++ [req])
        | .resp resp =>
          if validOk resp.status then (.deleted, m.2 ++ [req])
          else (.deleteFailed, m.2 ++ [req])

/-- `deleteTags` (apiClient.ts 280-287): `for (const tag of tags) await
deleteTag(repository, tag)` — sequential, in the caller-supplied order.
Returns the per-tag outcomes in order plus the concatenated request
trace. -/
def deleteTags (net : ApiRequest → Outcome ManifestResp)
    (repository : String) :
    List String → List (String × DeleteOutcome) × List ApiRequest
  | [] => ([], [])
  | tag :: rest =>
    let r := deleteTag net repository tag
    let rs := deleteTags net repository rest
    ((tag, r.1) :: rs.1, r.2 ++ rs.2)

/-- A delivered response of the catalog endpoint: status plus
`data.repositories`. -/
structure CatalogResp : Type where
  status : Nat
  repositories : List String
  deriving DecidableEq, Repr

/-- `fetchRepositories` (apiClient.ts 94-102): one GET of `/proxy/_catalog`;
any axios rejection is caught and `[]` is returned. -/
def fetchRepositories (net : String → Outcome CatalogResp) : List String :=
  match net "/proxy/_catalog" with
  | .netErr => []
  | .resp r => if validOk r.status then r.repositories else []

/-- A delivered response of the tag-list endpoint: status plus `data.tags`. -/
structure TagsResp : Type where
  status : Nat
  tags : List String
  deriving DecidableEq, Repr

/-- `fetchTags` (apiClient.ts 110-118): one GET of
`/proxy/<repository>/tags/list`; any axios rejection is caught and `[]` is
returned. -/
def fetchTags (net : String → Outcome TagsResp) (repository : String) :
    List String :=
  match net ("/proxy/" ++ repository ++ "/tags/list") with
  | .netErr => []
  | .resp r => if validOk r.status then r.tags else []

/-- A delivered response of the blob endpoint: status plus opaque body. -/
structure BlobResp : Type where
  status : Nat
  body : String
  deriving DecidableEq, Repr

/-- `fetchBlob` return value: the response data, or the `{}` returned on
failure. -/
inductive BlobResult : Type
  | payload (body : String)
  | emptyObj
  deriving DecidableEq, Repr

/-- `fetchBlob` (apiClient.ts 206-229): one GET of
`/proxy/<repository>/blobs/<digest>` with the (percent-decoded) media type
as Accept header; any axios rejection is caught and `{}` is returned.
Percent-decoding is not modelled: `mediaType` stands for the decoded
string. -/
def fetchBlob (net : ApiRequest → Outcome BlobResp)
    (repository digest mediaType : String) : BlobResult :=
  let req : ApiRequest :=
    { method := "GET"
      path := "/proxy/" ++ repository ++ "/blobs/" ++ digest
      accept := some mediaType }
  match net req with
  | .netErr => .emptyObj
  | .resp r => if validOk r.status then .payload r.body else .emptyObj

end RegistryViewer

namespace RegistryViewer

/-! ### Probe-loop lemmas shared by the resolver claims -/

/-- A probe-candidate miss: the axios call rejects (network error, or a
status outside {200, 404}), or a response other than 200 is delivered. -/
def probeMiss (o : Outcome ManifestResp) : Prop :=
  o = .netErr ∨ ∃ r, o = .resp r ∧ r.status ≠ 200

/-- An outcome that is not a miss is a delivered 200 response. -/
theorem probeMiss_resolve (o : Outcome ManifestResp) (h : ¬ probeMiss o) :
    ∃ r, o = .resp r ∧ r.status = 200 := by
  cases o with
  | netErr => exact absurd (Or.inl rfl) h
  | resp r =>
    by_cases hs : r.status = 200
    · exact ⟨r, rfl, hs⟩
    · exact absurd (Or.inr ⟨r, rfl, hs⟩) h

/-- A missed candidate adds its one request to the log and the loop
continues with the remaining candidates. -/
theorem probeManifests_miss_step (net : ApiRequest → Outcome ManifestResp)
    (repository reference mt : String) (rest : List String)
    (h : probeMiss (net (manifestReq repository reference mt))) :
    probeManifests net repository reference (mt :: rest)
      = ((probeManifests net repository reference rest).1,
         manifestReq repository reference mt ::
           (probeManifests net repository reference rest).2) := by
  rcases h with h | ⟨r, hr, hs⟩
  · simp only [probeManifests]
    rw [h]
  · simp only [probeManifests]
    rw [hr]
    by_cases hv : validOkOrNotFound r.status = true
    · simp [hv, hs]
    · simp [hv]

/-- A candidate answered with 200 returns immediately: its digest and body
are the result and its request is the whole log. -/
theorem probeManifests_hit_step (net : ApiRequest → Outcome ManifestResp)
    (repository reference mt : String) (rest : List String) (r : ManifestResp)
    (hr : net (manifestReq repository reference mt) = .resp r)
    (hs : r.status = 200) :
    probeManifests net repository reference (mt :: rest)
      = (.found r.digest r.body, [manifestReq repository reference mt]) := by
  simp only [probeManifests]
  rw [hr]
  simp [validOkOrNotFound, hs]

/-- When every candidate misses, the probe loop falls through to `null`. -/
theorem probeManifests_all_miss (net : ApiRequest → Outcome ManifestResp)
    (repository reference : String) (mts : List String)
    (h : ∀ mt ∈ mts, probeMiss (net (manifestReq repository reference mt))) :
    (probeManifests net repository reference mts).1 = .nullResult := by
  induction mts with
  | nil => rfl
  | cons mt rest ih =>
    rw [probeManifests_miss_step net repository reference mt rest
      (h mt (by simp))]
    exact ih (fun m hm => h m (by simp [hm]))

/-- With no media type, `fetchManifests` is exactly the probe loop over the
fixed candidate list. -/
theorem fetchManifests_none (net : ApiRequest → Outcome ManifestResp)
    (repository reference : String) :
    fetchManifests net repository reference none
      = probeManifests net repository reference mediaTypesProbe := rfl

end RegistryViewer

namespace RegistryViewer

/-- C1: with no explicit media type, the resolver's request log always
carries Accept headers forming a prefix of the fixed priority list
[Docker single-manifest v2, OCI image index] — candidates are probed in
that order, one request each — and whenever the first (Docker v2) candidate
is answered 200, its result is returned after exactly that one request, so
the index candidate is never contacted. -/
theorem fetchManifests_probe_order (net : ApiRequest → Outcome ManifestResp)
    (repository reference : String) :
    ((fetchManifests net repository reference none).2.map ApiRequest.accept)
        <+: mediaTypesProbe.map some ∧
    (∀ r, net (manifestReq repository reference dockerManifestV2) = .resp r →
      r.status = 200 →
      fetchManifests net repository reference none
        = (.found r.digest r.body,
           [manifestReq repository reference dockerManifestV2])) := by
  constructor
  · by_cases hd :
      probeMiss (net (manifestReq repository reference dockerManifestV2))
    · by_cases ho :
        probeMiss (net (manifestReq repository reference ociImageIndex))
      · rw [fetchManifests_none, mediaTypesProbe,
          probeManifests_miss_step net repository reference _ _ hd,
          probeManifests_miss_step net repository reference _ _ ho]
        exact ⟨[], rfl⟩
      · rcases probeMiss_resolve _ ho with ⟨r, hr, hs⟩
        rw [fetchManifests_none, mediaTypesProbe,
          probeManifests_miss_step net repository reference _ _ hd,
          probeManifests_hit_step net repository reference _ [] r hr hs]
        exact ⟨[], rfl⟩
    · rcases probeMiss_resolve _ hd with ⟨r, hr, hs⟩
      rw [fetchManifests_none, mediaTypesProbe,
        probeManifests_hit_step net repository reference _ _ r hr hs]
      exact ⟨[some ociImageIndex], rfl⟩
  · intro r hr hs
    rw [fetchManifests_none, mediaTypesProbe,
      probeManifests_hit_step net repository reference _ _ r hr hs]

/-- A registry double answering 200 for BOTH probe candidates, with
distinguishable digests and bodies. -/
def bothOkNet : ApiRequest → Outcome ManifestResp := fun req =>
  if req.accept = some dockerManifestV2 then
    .resp { status := 200, digest := some "sha256:single", body := "single-manifest" }
  else if req.accept = some ociImageIndex then
    .resp { status := 200, digest := some "sha256:index", body := "index-manifest" }
  else .netErr

/-- C1 witness: against the double that would satisfy both candidates, the
resolver returns the single-manifest result, never the index, after the one
Docker-v2 request. -/
theorem fetchManifests_probe_order_witness :
    fetchManifests bothOkNet "myrepo" "latest" none
      = (.found (some "sha256:single") "single-manifest",
         [manifestReq "myrepo" "latest" dockerManifestV2]) :=
  (fetchManifests_probe_order bothOkNet "myrepo" "latest").2
    { status := 200, digest := some "sha256:single", body := "single-manifest" }
    (by decide) rfl

/-- C8: in the probe mode, a 404 on a candidate, any other non-200, or a
transport failure is a non-fatal miss: the remaining candidates are still
probed (a 200 there is returned), and when both candidates miss the
resolver returns the `null` NotFound result after having issued both
requests — a value, not a thrown failure. -/
theorem fetchManifests_miss_continues (net : ApiRequest → Outcome ManifestResp)
    (repository reference : String) :
    (probeMiss (net (manifestReq repository reference dockerManifestV2)) →
      probeMiss (net (manifestReq repository reference ociImageIndex)) →
      fetchManifests net repository reference none
        = (.nullResult,
           [manifestReq repository reference dockerManifestV2,
            manifestReq repository reference ociImageIndex])) ∧
    (∀ r, probeMiss (net (manifestReq repository reference dockerManifestV2)) →
      net (manifestReq repository reference ociImageIndex) = .resp r →
      r.status = 200 →
      fetchManifests net repository reference none
        = (.found r.digest r.body,
           [manifestReq repository reference dockerManifestV2,
            manifestReq repository reference ociImageIndex])) := by
  constructor
  · intro hd ho
    rw [fetchManifests_none, mediaTypesProbe,
      probeManifests_miss_step net repository reference _ _ hd,
      probeManifests_miss_step net repository reference _ _ ho]
    rfl
  · intro r hd hr hs
    rw [fetchManifests_none, mediaTypesProbe,
      probeManifests_miss_step net repository reference _ _ hd,
      probeManifests_hit_step net repository reference _ [] r hr hs]

/-- A registry double answering 404 to every request. -/
def allNotFoundNet : ApiRequest → Outcome ManifestResp :=
  fun _ => .resp { status := 404, digest := none, body := "" }

/-- C8 witness: when every candidate yields 404, the resolver probes both
candidates and returns NotFound. -/
theorem fetchManifests_miss_continues_witness :
    fetchManifests allNotFoundNet "myrepo" "v1" none
      = (.nullResult,
         [manifestReq "myrepo" "v1" dockerManifestV2,
          manifestReq "myrepo" "v1" ociImageIndex]) :=
  (fetchManifests_miss_continues allNotFoundNet "myrepo" "v1").1
    (Or.inr ⟨{ status := 404, digest := none, body := "" }, rfl, by decide⟩)
    (Or.inr ⟨{ status := 404, digest := none, body := "" }, rfl, by decide⟩)

/-- C9: with an explicit (truthy) media type, exactly one request is issued
and its Accept header is that media type; a 200 returns the digest read
from the `docker-content-digest` response header together with the body;
any delivered non-200 or a rejected request yields `null`. -/
theorem fetchManifests_explicit_media (net : ApiRequest → Outcome ManifestResp)
    (repository reference mt : String) (hmt : mt ≠ "") :
    (fetchManifests net repository reference (some mt)).2
        = [manifestReq repository reference mt] ∧
    (∀ r, net (manifestReq repository reference mt) = .resp r →
      r.status = 200 →
      (fetchManifests net repository reference (some mt)).1
        = .found r.digest r.body) ∧
    (∀ r, net (manifestReq repository reference mt) = .resp r →
      r.status ≠ 200 →
      (fetchManifests net repository reference (some mt)).1 = .nullResult) ∧
    (net (manifestReq repository reference mt) = .netErr →
      (fetchManifests net repository reference (some mt)).1 = .nullResult) := by
  refine ⟨?_, ?_, ?_, ?_⟩
  · simp only [fetchManifests, if_neg hmt]
    cases h : net (manifestReq repository reference mt) with
    | netErr => rfl
    | resp r =>
      by_cases hv : validOk r.status = true
      · by_cases hs : r.status = 200 <;> simp [hv, hs, validOk]
      · simp [hv]
  · intro r hr hs
    simp only [fetchManifests, if_neg hmt]
    rw [hr]
    simp [hs, validOk]
  · intro r hr hs
    simp only [fetchManifests, if_neg hmt]
    rw [hr]
    by_cases hv : validOk r.status = true <;> simp [hv, hs]
  · intro h
    simp only [fetchManifests, if_neg hmt]
    rw [h]

/-- A registry double that serves exactly one known manifest with its
content digest. -/
def oneManifestNet : ApiRequest → Outcome ManifestResp :=
  fun req =>
    if req.path = "proxy/myrepo/manifests/sha256:child" then
      .resp { status := 200, digest := some "sha256:child", body := "child-manifest" }
    else .netErr

/-- C9 witness: the theorem applied to the concrete one-manifest double. -/
theorem fetchManifests_explicit_media_witness :
    (fetchManifests oneManifestNet "myrepo" "sha256:child"
        (some dockerManifestV2)).2
      = [manifestReq "myrepo" "sha256:child" dockerManifestV2] ∧
    (fetchManifests oneManifestNet "myrepo" "sha256:child"
        (some dockerManifestV2)).1
      = .found (some "sha256:child") "child-manifest" := by
  have h := fetchManifests_explicit_media oneManifestNet "myrepo" "sha256:child"
    dockerManifestV2 (by decide)
  exact ⟨h.1, h.2.1
    { status := 200, digest := some "sha256:child", body := "child-manifest" }
    (by decide) rfl⟩

end RegistryViewer

namespace RegistryViewer

/-! ### Tag Deletion Orchestrator claims -/

/-- Every request the probe loop issues is a GET of the manifest endpoint. -/
theorem probeManifests_log_methods (net : ApiRequest → Outcome ManifestResp)
    (repository reference : String) (mts : List String) :
    ∀ q ∈ (probeManifests net repository reference mts).2, q.method = "GET" := by
  induction mts with
  | nil =>
    intro q hq
    simp [probeManifests] at hq
  | cons mt rest ih =>
    intro q hq
    by_cases hm : probeMiss (net (manifestReq repository reference mt))
    · rw [probeManifests_miss_step net repository reference mt rest hm,
        List.mem_cons] at hq
      rcases hq with hq | hq
      · rw [hq]; rfl
      · exact ih q hq
    · rcases probeMiss_resolve _ hm with ⟨r, hr, hs⟩
      rw [probeManifests_hit_step net repository reference mt rest r hr hs,
        List.mem_singleton] at hq
      rw [hq]; rfl

/-- Per tag, `deleteTag` issues exactly the resolver's requests followed by
at most one DELETE. -/
theorem deleteTag_trace (net : ApiRequest → Outcome ManifestResp)
    (repository t : String) :
    ∃ post, (deleteTag net repository t).2
        = (fetchManifests net repository t none).2 ++ post ∧
      post.length ≤ 1 ∧ (∀ q ∈ post, q.method = "DELETE") := by
  simp only [deleteTag]
  cases hm : (fetchManifests net repository t none).1 with
  | nullResult => exact ⟨[], by simp, by simp, by simp⟩
  | found dg bd =>
    cases dg with
    | none => exact ⟨[], by simp, by simp, by simp⟩
    | some d =>
      by_cases hd : d = ""
      · exact ⟨[], by simp [hd], by simp, by simp⟩
      · cases hnet : net (deleteReq repository d) with
        | netErr =>
          exact ⟨[deleteReq repository d], by simp [hd, hnet], by simp,
            by simp [deleteReq]⟩
        | resp r2 =>
          by_cases hv : validOk r2.status = true
          · exact ⟨[deleteReq repository d], by simp [hd, hnet, hv], by simp,
              by simp [deleteReq]⟩
          · exact ⟨[deleteReq repository d], by simp [hd, hnet, hv], by simp,
              by simp [deleteReq]⟩

/-- A registry double for a three-tag deletion where tag B fails to
resolve: tags A and C resolve with distinct digests, B yields 404 for both
candidates, and every DELETE is accepted with 202. -/
def abcNet : ApiRequest → Outcome ManifestResp := fun req =>
  if req.method = "DELETE" then .resp { status := 202, digest := none, body := "" }
  else if req.path = "proxy/myrepo/manifests/A" then
    .resp { status := 200, digest := some "sha256:aaa", body := "mA" }
  else if req.path = "proxy/myrepo/manifests/C" then
    .resp { status := 200, digest := some "sha256:ccc", body := "mC" }
  else .resp { status := 404, digest := none, body := "" }

/-- C2: `deleteTags` processes the tags sequentially in the caller-supplied
order — every tag gets exactly one terminal outcome (the orchestrator is a
total function and never raises an aggregate error), the request trace is
the per-tag traces concatenated in order, and each tag's trace is its one
resolution attempt followed by at most one DELETE. -/
theorem deleteTags_sequential (net : ApiRequest → Outcome ManifestResp)
    (repository : String) (tags : List String) :
    (deleteTags net repository tags).1
        = tags.map (fun t => (t, (deleteTag net repository t).1)) ∧
    (deleteTags net repository tags).2
        = tags.flatMap (fun t => (deleteTag net repository t).2) ∧
    (∀ t, ∃ post,
        (deleteTag net repository t).2
            = (fetchManifests net repository t none).2 ++ post ∧
        post.length ≤ 1 ∧ (∀ q ∈ post, q.method = "DELETE")) := by
  refine ⟨?_, ?_, fun t => deleteTag_trace net repository t⟩
  · induction tags with
    | nil => rfl
    | cons t rest ih => simp [deleteTags, ih]
  · induction tags with
    | nil => rfl
    | cons t rest ih => simp [deleteTags, ih]

/-- C2 witness: with tags [A, B, C] where B fails resolution, every tag is
processed in order, B's failure is a logged outcome rather than an abort,
and deletion is attempted (and succeeds) for A and then C, in that order. -/
theorem deleteTags_sequential_witness :
    (deleteTags abcNet "myrepo" ["A", "B", "C"]).1
        = [("A", .deleted), ("B", .noDigest), ("C", .deleted)] ∧
    ((deleteTags abcNet "myrepo" ["A", "B", "C"]).2.filter
        (fun q => q.method == "DELETE"))
        = [deleteReq "myrepo" "sha256:aaa", deleteReq "myrepo" "sha256:ccc"] := by
  have h := deleteTags_sequential abcNet "myrepo" ["A", "B", "C"]
  refine ⟨?_, by decide⟩
  rw [h.1]
  decide

end RegistryViewer

namespace RegistryViewer

/-! ### Uniform failure-to-empty behaviour of the client operations -/

/-- A failed axios request: rejected at transport level, or delivered with
a status the default validation (2xx) refuses. -/
def httpFailed {α : Type} (status : α → Nat) (o : Outcome α) : Prop :=
  o = .netErr ∨ ∃ r, o = .resp r ∧ validOk (status r) = false

/-- A failed request is a probe miss (its status cannot be 200). -/
theorem httpFailed_probeMiss (o : Outcome ManifestResp)
    (h : httpFailed ManifestResp.status o) : probeMiss o := by
  rcases h with h | ⟨r, hr, hv⟩
  · exact Or.inl h
  · refine Or.inr ⟨r, hr, fun hs => ?_⟩
    rw [hs] at hv
    simp [validOk] at hv

/-- C10: whenever the underlying requests fail (network error or non-2xx
status), the public client operations reject nothing and instead return
their empty values: `fetchRepositories` and `fetchTags` the empty array,
`fetchBlob` the empty object, and `fetchManifests` null — for any media
type argument. -/
theorem apiClient_failure_empty
    (netC : String → Outcome CatalogResp) (netT : String → Outcome TagsResp)
    (netB : ApiRequest → Outcome BlobResp)
    (netM : ApiRequest → Outcome ManifestResp)
    (repository reference dgst mtB : String) (mediaType : Option String)
    (hC : ∀ p, httpFailed CatalogResp.status (netC p))
    (hT : ∀ p, httpFailed TagsResp.status (netT p))
    (hB : ∀ q, httpFailed BlobResp.status (netB q))
    (hM : ∀ q, httpFailed ManifestResp.status (netM q)) :
    fetchRepositories netC = [] ∧
    fetchTags netT repository = [] ∧
    fetchBlob netB repository dgst mtB = .emptyObj ∧
    (fetchManifests netM repository reference mediaType).1 = .nullResult := by
  refine ⟨?_, ?_, ?_, ?_⟩
  · rcases hC "/proxy/_catalog" with h | ⟨r, hr, hv⟩
    · simp [fetchRepositories, h]
    · simp [fetchRepositories, hr, hv]
  · rcases hT ("/proxy/" ++ repository ++ "/tags/list") with h | ⟨r, hr, hv⟩
    · simp [fetchTags, h]
    · simp [fetchTags, hr, hv]
  · rcases hB ⟨"GET", "/proxy/" ++ repository ++ "/blobs/" ++ dgst, some mtB⟩
      with h | ⟨r, hr, hv⟩
    · simp [fetchBlob, h]
    · simp [fetchBlob, hr, hv]
  · have hprobe :
        (probeManifests netM repository reference mediaTypesProbe).1
          = .nullResult :=
      probeManifests_all_miss netM repository reference mediaTypesProbe
        (fun mt _ => httpFailed_probeMiss _ (hM _))
    cases mediaType with
    | none => rw [fetchManifests_none]; exact hprobe
    | some mt =>
      by_cases hmt : mt = ""
      · simp only [fetchManifests, hmt, if_pos rfl]
        simpa [hmt] using hprobe
      · simp only [fetchManifests, if_neg hmt]
        rcases hM (manifestReq repository reference mt) with h | ⟨r, hr, hv⟩
        · rw [h]
        · rw [hr]
          simp [hv]

/-- Transports on which every request fails, mixing a transport rejection
with delivered 5xx statuses. -/
def downCatalogNet : String → Outcome CatalogResp := fun _ => .netErr

/-- Tag-list transport answering 500 to everything. -/
def downTagsNet : String → Outcome TagsResp :=
  fun _ => .resp { status := 500, tags := ["stale"] }

/-- Blob transport rejecting everything. -/
def downBlobNet : ApiRequest → Outcome BlobResp := fun _ => .netErr

/-- Manifest transport answering 503 to everything. -/
def downManifestNet : ApiRequest → Outcome ManifestResp :=
  fun _ => .resp { status := 503, digest := none, body := "" }

/-- C10 witness: the theorem applied to concrete all-failing transports. -/
theorem apiClient_failure_empty_witness :
    fetchRepositories downCatalogNet = [] ∧
    fetchTags downTagsNet "myrepo" = [] ∧
    fetchBlob downBlobNet "myrepo" "sha256:cfg" "application/json" = .emptyObj ∧
    (fetchManifests downManifestNet "myrepo" "latest" none).1 = .nullResult :=
  apiClient_failure_empty downCatalogNet downTagsNet downBlobNet downManifestNet
    "myrepo" "latest" "sha256:cfg" "application/json" none
    (fun _ => Or.inl rfl)
    (fun _ => Or.inr ⟨{ status := 500, tags := ["stale"] }, rfl, rfl⟩)
    (fun _ => Or.inl rfl)
    (fun _ => Or.inr ⟨{ status := 503, digest := none, body := "" }, rfl, rfl⟩)

end RegistryViewer
